import Mathlib

/-!
Shallow embedding of the notification subsystem of the palliative-care
mobile client:

* `NotificationHistoryScreen.tsx` — the per-user persisted notification
  history (`addNotificationToHistory`, `markAsRead`, `handleNotificationPress`,
  `formatTimestamp`);
* `NotificationService.ts` — push registration
  (`registerForPushNotifications`, `registerPushTokenWithBackend`) and local
  scheduling (`scheduleNotification` and its convenience builders).

JavaScript numbers holding epoch-millisecond timestamps are modelled as `Int`
(all values in play are integral and far below 2^53, where JS arithmetic is
exact).  JS string truthiness (`s || d` yields `d` when `s` is `undefined` or
the empty string) is modelled by `jsOrString`.  Asynchronous effects are
modelled by explicit state passing plus effect records / event lists; the
persisted `AsyncStorage` value is the state being transformed.
-/

/-- JS `x || d` for an optional string `x`: the default is taken when the
value is `undefined` or falsy (the empty string). -/
def jsOrString (x : Option String) (d : String) : String :=
  match x with
  | none => d
  | some s => if s = "" then d else s

/-- The notification payload fields the history screen reads
(`data?.type` and `data?.conversationId`); the remaining payload content is
opaque to every operation modelled here. -/
structure Payload where
  typeTag : Option String
  conversationId : Option String
deriving DecidableEq, Repr

/-- Record type `NotificationRecord` from `NotificationHistoryScreen.tsx`.  The source
declares `type` as a string union, but the runtime value is whatever string
arrives in the payload (the code casts with `as any`), so it is a `String`
here. -/
structure NotificationRecord where
  id : String
  title : String
  body : String
  data : Payload
  timestamp : Int
  read : Bool
  type : String
deriving DecidableEq, Repr

/-- An inbound platform notification, as read by `addNotificationToHistory`:
`notification.request.identifier` and the content fields.  `title` and `body`
are optional because the source defaults them with `|| 'Notification'` and
`|| ''`. -/
structure InboundNotification where
  identifier : String
  title : Option String
  body : Option String
  data : Payload
deriving DecidableEq, Repr

/-- The candidate record built at the top of `addNotificationToHistory`:
`id`, defaulted `title`/`body`, the payload, the current wall-clock time,
`read = false`, and `type = data?.type || 'other'`. -/
def mkCandidate (n : InboundNotification) (now : Int) : NotificationRecord :=
  { id := n.identifier
    title := jsOrString n.title "Notification"
    body := jsOrString n.body ""
    data := n.data
    timestamp := now
    read := false
    type := jsOrString n.data.typeTag "other" }

/-- The chat-deduplication search predicate inside `addNotificationToHistory`:
`n.type === 'chat' && n.data?.conversationId === conversationId &&
Date.now() - n.timestamp < 60000`.  The two `Date.now()` reads of one call
are modelled as the single instant `now`. -/
def chatDedupMatch (conversationId : Option String) (now : Int)
    (r : NotificationRecord) : Bool :=
  r.type == "chat" && r.data.conversationId == conversationId &&
    decide (now - r.timestamp < 60000)

/-- Operation `addNotificationToHistory` acting on the persisted per-user list
(`AsyncStorage` key `notifications_{userId}`): on a chat-dedup hit the stored
list is mapped in place (the map result is what is persisted; only the
in-memory view is re-sorted), otherwise the candidate is prepended and the
list truncated to 100 entries. -/
def addNotificationToHistory (existing : List NotificationRecord)
    (n : InboundNotification) (now : Int) : List NotificationRecord :=
  let newNotif := mkCandidate n now
  if newNotif.type = "chat" then
    let conversationId := newNotif.data.conversationId
    match existing.find? (chatDedupMatch conversationId now) with
    | some recentChat =>
        existing.map (fun r =>
          if r.id = recentChat.id then
            { r with body := newNotif.body, timestamp := newNotif.timestamp }
          else r)
    | none => (newNotif :: existing).take 100
  else
    (newNotif :: existing).take 100

/-- Operation `markAsRead`: map over the list setting `read := true` on the record whose
id matches. -/
def markAsRead (l : List NotificationRecord) (id : String) :
    List NotificationRecord :=
  l.map (fun r => if r.id = id then { r with read := true } else r)

/-- In-app destinations reachable from the history screen's tap handler. -/
inductive Destination where
  | chat
  | medications
  | home
  | maps
deriving DecidableEq, Repr

/-- Observable steps of the tap handler, in execution order. -/
inductive UIEvent where
  | markRead (id : String)
  | navigate (d : Destination)
deriving DecidableEq, Repr

/-- Operation `handleNotificationPress`: first `markAsRead(notif.id)`, then a `switch`
on `notif.type` that navigates (its default is to do nothing).  The result is
the updated store plus the ordered event trace. -/
def handleNotificationPress (l : List NotificationRecord)
    (notif : NotificationRecord) : List NotificationRecord × List UIEvent :=
  let updated := markAsRead l notif.id
  let navEvents : List UIEvent :=
    if notif.type = "chat" then [UIEvent.navigate Destination.chat]
    else if notif.type = "medication" then [UIEvent.navigate Destination.medications]
    else if notif.type = "prescription" then [UIEvent.navigate Destination.medications]
    else if notif.type = "appointment" then [UIEvent.navigate Destination.home]
    else if notif.type = "emergency" then [UIEvent.navigate Destination.maps]
    else []
  (updated, UIEvent.markRead notif.id :: navEvents)

/-- The platform date formatter reached by `formatTimestamp`'s final branch
(`new Date(timestamp).toLocaleDateString()`), modelled as an injective
function of the absolute timestamp only. -/
def toLocaleDateString (timestamp : Int) : String :=
  "date " ++ toString timestamp

/-- Operation `formatTimestamp` from `NotificationHistoryScreen.tsx`: bucket the
difference `now - timestamp` (JS `Math.floor` division is `Int.fdiv`). -/
def formatTimestamp (now timestamp : Int) : String :=
  let diff := now - timestamp
  if diff < 60000 then "Just now"
  else if diff < 3600000 then toString (diff.fdiv 60000) ++ "m ago"
  else if diff < 86400000 then toString (diff.fdiv 3600000) ++ "h ago"
  else if diff < 604800000 then toString (diff.fdiv 86400000) ++ "d ago"
  else toLocaleDateString timestamp

/-! Section: embedding of `NotificationService.ts`. -/

/-- Content type `NotificationData` from `NotificationService.ts` (the `type` union is kept
as a `String`; the opaque `data` payload plays no role in the properties
below). -/
structure NotificationData where
  type : String
  title : String
  body : String
deriving DecidableEq, Repr

/-- The trigger shapes actually passed to
`Notifications.scheduleNotificationAsync` by this code base: a one-shot or
repeating interval of whole seconds, or a daily calendar trigger. -/
inductive TriggerInput where
  | timeInterval (seconds : Int) (repeats : Bool)
  | calendar (hour minute : Int) (repeats : Bool)
deriving DecidableEq, Repr

/-- Android priority values used by `scheduleNotification`. -/
inductive AndroidPriority where
  | max
  | high
deriving DecidableEq, Repr

/-- The request handed to the platform scheduler: content plus the trigger
(`none` means fire immediately, matching `trigger: trigger || null`). -/
structure ScheduledRequest where
  title : String
  body : String
  priority : AndroidPriority
  channelId : Option String
  trigger : Option TriggerInput
deriving DecidableEq, Repr

/-- Operation `scheduleNotification`: channel id on Android is the category, priority is
`MAX` for `emergency` and `HIGH` otherwise, and the trigger argument is
forwarded unchanged (no clamping happens here). -/
def scheduleNotification (d : NotificationData)
    (trigger : Option TriggerInput) (platformAndroid : Bool) :
    ScheduledRequest :=
  { title := d.title
    body := d.body
    priority := if d.type = "emergency" then AndroidPriority.max
                else AndroidPriority.high
    channelId := if platformAndroid then some d.type else none
    trigger := trigger }

/-- The JS computation `Math.round(ms / 1000)` for an integral millisecond count:
`Math.round x = ⌊x + 1/2⌋` (halves round toward positive infinity), so
`Math.round(ms / 1000) = ⌊(2 ms + 1000) / 2000⌋`. -/
def jsRoundDivThousand (ms : Int) : Int :=
  (2 * ms + 1000).fdiv 2000

/-- Builder `sendAppointmentNotification`: the trigger fires
`max 1 (round ((appointmentTime - minutesBefore·60s) - now) / 1000)` seconds
from now, category `appointment`. -/
def sendAppointmentNotification (now : Int) (appointmentTitle : String)
    (appointmentTime : Int) (minutesBefore : Int) (platformAndroid : Bool) :
    ScheduledRequest :=
  let triggerDate := appointmentTime - minutesBefore * 60 * 1000
  let seconds := max 1 (jsRoundDivThousand (triggerDate - now))
  scheduleNotification
    { type := "appointment"
      title := "Appointment Reminder"
      body := "Your appointment \"" ++ appointmentTitle ++ "\" is in "
        ++ toString minutesBefore ++ " minutes" }
    (some (TriggerInput.timeInterval seconds false)) platformAndroid

/-- Builder `sendMedicationNotification`: same clamped interval computation against an
absolute target time, category `medication`. -/
def sendMedicationNotification (now : Int) (medicationName dosage : String)
    (time : Int) (platformAndroid : Bool) : ScheduledRequest :=
  let seconds := max 1 (jsRoundDivThousand (time - now))
  scheduleNotification
    { type := "medication"
      title := "Medication Reminder"
      body := "Time to take " ++ medicationName ++ " (" ++ dosage ++ ")" }
    (some (TriggerInput.timeInterval seconds false)) platformAndroid

/-- Builder `scheduleDailyMedication`: daily repeating calendar trigger. -/
def scheduleDailyMedication (medicationName dosage : String)
    (hour minute : Int) (platformAndroid : Bool) : ScheduledRequest :=
  scheduleNotification
    { type := "medication"
      title := "Medication Reminder"
      body := "Time to take " ++ medicationName ++ " (" ++ dosage ++ ")" }
    (some (TriggerInput.calendar hour minute true)) platformAndroid

/-! Section: push registration. -/

/-- The environment `registerForPushNotifications` observes: device shape,
`Constants.appOwnership`, the current permission status, the status a
permission request would return, the platform, the configured EAS project id,
and the outcome of `getExpoPushTokenAsync` (error carries the message tested
for Firebase misconfiguration). -/
structure PushEnv where
  isDevice : Bool
  appOwnership : Option String
  permStatus : String
  requestedStatus : String
  platformAndroid : Bool
  projectId : Option String
  tokenResult : Except String String

/-- Mutable registrar state: the cached `expoPushToken`. -/
structure RegistrarState where
  expoPushToken : Option String
deriving DecidableEq, Repr

/-- Which platform calls `registerForPushNotifications` performed. -/
structure PushEffects where
  checkedPermissions : Bool
  requestedPermissions : Bool
  createdChannels : Bool
  requestedToken : Bool
deriving DecidableEq, Repr

/-- The effect record of a call that returned before touching the platform. -/
def noPushEffects : PushEffects :=
  { checkedPermissions := false
    requestedPermissions := false
    createdChannels := false
    requestedToken := false }

/-- Operation `registerForPushNotifications`: the Expo Go / simulator short-circuit,
permission check and request, Android channel creation before token issuance,
the `local-only` sentinel when no project id is configured, and degradation
to `local-only` on any token-request failure (the Firebase-specific inner
catch and the outer catch both end in `local-only`). -/
def registerForPushNotifications (env : PushEnv) (st : RegistrarState) :
    Option String × RegistrarState × PushEffects :=
  let isExpoGo := env.appOwnership = some "expo"
  if env.isDevice = false ∨ isExpoGo then
    (none, st, noPushEffects)
  else
    let requested := env.permStatus != "granted"
    let finalStatus := if requested then env.requestedStatus else env.permStatus
    if finalStatus != "granted" then
      (none, st,
        { checkedPermissions := true
          requestedPermissions := requested
          createdChannels := false
          requestedToken := false })
    else
      let channels := env.platformAndroid
      match env.projectId with
      | none =>
          (some "local-only", { expoPushToken := some "local-only" },
            { checkedPermissions := true
              requestedPermissions := requested
              createdChannels := channels
              requestedToken := false })
      | some _ =>
          match env.tokenResult with
          | Except.ok t =>
              (some t, { expoPushToken := some t },
                { checkedPermissions := true
                  requestedPermissions := requested
                  createdChannels := channels
                  requestedToken := true })
          | Except.error _ =>
              (some "local-only", { expoPushToken := some "local-only" },
                { checkedPermissions := true
                  requestedPermissions := requested
                  createdChannels := channels
                  requestedToken := true })

/-- The JSON body of the backend response as the code reads it:
`data.success` is either absent or a boolean. -/
structure ParsedBody where
  success : Option Bool
deriving DecidableEq, Repr

/-- A fetch response: the HTTP status code and the outcome of
`response.json()` (`Except.error` when the body is not valid JSON). -/
structure HttpResponse where
  status : Int
  jsonBody : Except Unit ParsedBody

/-- The network environment of one `registerPushTokenWithBackend` call:
either the fetch rejects (network failure) or a response arrives. -/
structure BackendEnv where
  response : Except Unit HttpResponse

/-- Operation `registerPushTokenWithBackend`: returns `(result, networkAttempted)`.
With no cached token it returns `false` before any fetch; otherwise the fetch
and `response.json()` run inside a try/catch that converts every failure to
`false`, and the result is `data.success || false`.  The HTTP status code is
never consulted. -/
def registerPushTokenWithBackend (cachedToken : Option String)
    (env : BackendEnv) : Bool × Bool :=
  match cachedToken with
  | none => (false, false)
  | some _ =>
      match env.response with
      | Except.error _ => (false, true)
      | Except.ok resp =>
          match resp.jsonBody with
          | Except.error _ => (false, true)
          | Except.ok data => (data.success.getD false, true)

/-! Section: helper lemmas. -/

lemma markAsRead_idem (l : List NotificationRecord) (id : String) :
    markAsRead (markAsRead l id) id = markAsRead l id := by
  unfold markAsRead
  rw [List.map_map]
  refine List.map_congr_left (fun r _ => ?_)
  by_cases h : r.id = id
  · simp only [Function.comp_apply, if_pos h]
  · simp only [Function.comp_apply, if_neg h]

lemma markAsRead_read_of_mem (l : List NotificationRecord) (id : String) :
    ∀ r ∈ markAsRead l id, r.id = id → r.read = true := by
  intro r hr hid
  unfold markAsRead at hr
  rw [List.mem_map] at hr
  obtain ⟨s, hs, rfl⟩ := hr
  by_cases h : s.id = id
  · rw [if_pos h]
  · rw [if_neg h] at hid ⊢
    exact absurd hid h

lemma markAsRead_noop (l : List NotificationRecord) (id : String)
    (h : ∀ r ∈ l, r.id ≠ id) : markAsRead l id = l := by
  unfold markAsRead
  conv_rhs => rw [← List.map_id l]
  exact List.map_congr_left (fun r hr => if_neg (h r hr))

lemma mkCandidate_type_of_tag (n : InboundNotification) (now : Int) (s : String)
    (h : n.data.typeTag = some s) (hne : s ≠ "") : (mkCandidate n now).type = s := by
  simp [mkCandidate, jsOrString, h, hne]

lemma take100_one (a : NotificationRecord) : List.take 100 [a] = [a] := rfl

lemma take100_two (a b : NotificationRecord) : List.take 100 [a, b] = [a, b] := rfl

lemma addNotification_nil (n : InboundNotification) (t : Int) :
    addNotificationToHistory [] n t = [mkCandidate n t] := by
  by_cases h : (mkCandidate n t).type = "chat" <;>
    simp [addNotificationToHistory, h, List.find?]

/-! Section: claim theorems. -/

/-- C7: `formatTimestamp` buckets `Δ = now - timestamp` with half-open lower
bounds: `Δ < 60000` gives "Just now"; `60000 ≤ Δ < 3600000` gives
`⌊Δ/60000⌋m ago`; `3600000 ≤ Δ < 86400000` gives `⌊Δ/3600000⌋h ago`;
`86400000 ≤ Δ < 604800000` gives `⌊Δ/86400000⌋d ago`; otherwise the absolute
date string of the timestamp; and in particular Δ = 59999 gives "Just now",
Δ = 60000 gives "1m ago", Δ = 3599999 gives "59m ago", Δ = 3600000 gives
"1h ago". -/
theorem formatTimestamp_buckets (now ts : Int) :
    (now - ts < 60000 → formatTimestamp now ts = "Just now") ∧
    (60000 ≤ now - ts → now - ts < 3600000 →
      formatTimestamp now ts = toString ((now - ts).fdiv 60000) ++ "m ago") ∧
    (3600000 ≤ now - ts → now - ts < 86400000 →
      formatTimestamp now ts = toString ((now - ts).fdiv 3600000) ++ "h ago") ∧
    (86400000 ≤ now - ts → now - ts < 604800000 →
      formatTimestamp now ts = toString ((now - ts).fdiv 86400000) ++ "d ago") ∧
    (604800000 ≤ now - ts → formatTimestamp now ts = toLocaleDateString ts) ∧
    formatTimestamp 59999 0 = "Just now" ∧
    formatTimestamp 60000 0 = "1m ago" ∧
    formatTimestamp 3599999 0 = "59m ago" ∧
    formatTimestamp 3600000 0 = "1h ago" := by
  refine ⟨?_, ?_, ?_, ?_, ?_, by decide, by decide, by decide, by decide⟩ <;>
    · intros
      simp only [formatTimestamp]
      split_ifs <;> first | rfl | omega

/-- C7 witness: the boundary buckets instantiated at concrete times. -/
theorem formatTimestamp_buckets_witness :
    formatTimestamp 100 0 = "Just now" ∧
    formatTimestamp 7200000 0 = toString ((7200000 - 0 : Int).fdiv 3600000) ++ "h ago" ∧
    formatTimestamp 700000000 0 = toLocaleDateString 0 :=
  ⟨(formatTimestamp_buckets 100 0).1 (by decide),
   (formatTimestamp_buckets 7200000 0).2.2.1 (by decide) (by decide),
   (formatTimestamp_buckets 700000000 0).2.2.2.2.1 (by decide)⟩

/-- C9: `markAsRead` is idempotent and total on the record list: applying it
twice equals applying it once; every record of the result whose id matches is
read; and when no record has the id the list is returned unchanged. -/
theorem markAsRead_spec (l : List NotificationRecord) (id : String) :
    markAsRead (markAsRead l id) id = markAsRead l id ∧
    (∀ r ∈ markAsRead l id, r.id = id → r.read = true) ∧
    ((∀ r ∈ l, r.id ≠ id) → markAsRead l id = l) :=
  ⟨markAsRead_idem l id, markAsRead_read_of_mem l id, markAsRead_noop l id⟩

/-- A concrete sample record used to instantiate the `markAsRead`
properties. -/
def sampleRecord : NotificationRecord :=
  { id := "a"
    title := "T"
    body := "B"
    data := { typeTag := none, conversationId := none }
    timestamp := 0
    read := false
    type := "other" }

/-- C9 witness: instantiation on a concrete one-record list for both the
matching and the id-not-found cases. -/
theorem markAsRead_spec_witness :
    markAsRead (markAsRead [sampleRecord] "a") "a"
      = markAsRead [sampleRecord] "a" ∧
    markAsRead [sampleRecord] "zzz" = [sampleRecord] :=
  ⟨(markAsRead_spec [sampleRecord] "a").1,
   (markAsRead_spec [sampleRecord] "zzz").2.2 (by decide)⟩

/-- C4: opening a record routes by category (`chat` to the Chat destination,
`medication` or `prescription` to Medications, `appointment` to Home,
`emergency` to Maps, anything else nowhere), and `markAsRead` is triggered
first: the event trace starts with the mark-read step, and in the store state
paired with the destination the opened record is already read. -/
theorem handleNotificationPress_spec (l : List NotificationRecord)
    (notif : NotificationRecord) :
    (handleNotificationPress l notif).1 = markAsRead l notif.id ∧
    (∀ r ∈ (handleNotificationPress l notif).1, r.id = notif.id → r.read = true) ∧
    (handleNotificationPress l notif).2.head? = some (UIEvent.markRead notif.id) ∧
    (notif.type = "chat" → (handleNotificationPress l notif).2
      = [UIEvent.markRead notif.id, UIEvent.navigate Destination.chat]) ∧
    (notif.type = "medication" ∨ notif.type = "prescription" →
      (handleNotificationPress l notif).2
        = [UIEvent.markRead notif.id, UIEvent.navigate Destination.medications]) ∧
    (notif.type = "appointment" → (handleNotificationPress l notif).2
      = [UIEvent.markRead notif.id, UIEvent.navigate Destination.home]) ∧
    (notif.type = "emergency" → (handleNotificationPress l notif).2
      = [UIEvent.markRead notif.id, UIEvent.navigate Destination.maps]) ∧
    (notif.type ≠ "chat" → notif.type ≠ "medication" →
      notif.type ≠ "prescription" → notif.type ≠ "appointment" →
      notif.type ≠ "emergency" →
      (handleNotificationPress l notif).2 = [UIEvent.markRead notif.id]) := by
  refine ⟨rfl, markAsRead_read_of_mem l notif.id, rfl, ?_, ?_, ?_, ?_, ?_⟩
  · intro h
    simp only [handleNotificationPress]
    rw [if_pos h]
  · rintro (h | h) <;> simp [handleNotificationPress, h]
  · intro h
    simp [handleNotificationPress, h]
  · intro h
    simp [handleNotificationPress, h]
  · intro h1 h2 h3 h4 h5
    simp only [handleNotificationPress]
    rw [if_neg h1, if_neg h2, if_neg h3, if_neg h4, if_neg h5]

/-- C4 witness: a concrete medication record is routed to Medications with
the mark-read event first, and the record is read in the resulting store. -/
theorem handleNotificationPress_spec_witness :
    (handleNotificationPress [{ sampleRecord with type := "medication" }]
        { sampleRecord with type := "medication" }).2
      = [UIEvent.markRead "a", UIEvent.navigate Destination.medications] ∧
    (∀ r ∈ (handleNotificationPress [{ sampleRecord with type := "medication" }]
        { sampleRecord with type := "medication" }).1,
      r.id = "a" → r.read = true) :=
  ⟨(handleNotificationPress_spec [{ sampleRecord with type := "medication" }]
      { sampleRecord with type := "medication" }).2.2.2.2.1 (Or.inl rfl),
   (handleNotificationPress_spec [{ sampleRecord with type := "medication" }]
      { sampleRecord with type := "medication" }).2.1⟩

/-- C8: on a non-physical device or in the Expo Go sandbox,
`registerForPushNotifications` returns `null` immediately with no side
effects: the registrar state is unchanged and no permission check or request,
channel creation, or token request is performed. -/
theorem registerForPushNotifications_shortCircuit (env : PushEnv)
    (st : RegistrarState)
    (h : env.isDevice = false ∨ env.appOwnership = some "expo") :
    registerForPushNotifications env st = (none, st, noPushEffects) := by
  simp only [registerForPushNotifications]
  rw [if_pos h]

/-- A concrete simulator-like environment: not a physical device, everything
else permissive. -/
def simulatorEnv : PushEnv :=
  { isDevice := false
    appOwnership := none
    permStatus := "granted"
    requestedStatus := "granted"
    platformAndroid := true
    projectId := some "projectid"
    tokenResult := Except.ok "ExponentPushToken[zzzz]" }

/-- C8 witness: the short-circuit instantiated on the simulator environment
with an empty registrar cache. -/
theorem registerForPushNotifications_shortCircuit_witness :
    registerForPushNotifications simulatorEnv { expoPushToken := none }
      = (none, { expoPushToken := none }, noPushEffects) :=
  registerForPushNotifications_shortCircuit simulatorEnv
    { expoPushToken := none } (Or.inl rfl)

/-- C3 counterexample: a non-2xx response whose body still parses to
`{success: true}` makes `registerPushTokenWithBackend` return `true` — the
HTTP status code is never consulted, refuting the claim that any non-2xx
response yields `false`. -/
theorem registerPushTokenWithBackend_counterexample :
    (registerPushTokenWithBackend (some "ExponentPushToken[zzzz]")
        { response := Except.ok
            { status := 500, jsonBody := Except.ok { success := some true } } }).1
      = true ∧ (500 : Int) ∉ Set.Icc (200 : Int) 299 := by
  refine ⟨rfl, by simp⟩

/-- C3 (amended): `registerPushTokenWithBackend` never throws (it is a total
function here); with no cached token it returns `false` without a network
attempt; a network attempt happens exactly when a token is cached; and the
result is `true` exactly when the fetch resolves and the body parses to JSON
whose `success` field is `true` — regardless of the HTTP status code. -/
theorem registerPushTokenWithBackend_spec (cached : Option String)
    (env : BackendEnv) :
    (cached = none → registerPushTokenWithBackend cached env = (false, false)) ∧
    (registerPushTokenWithBackend cached env).2 = cached.isSome ∧
    ((registerPushTokenWithBackend cached env).1 = true ↔
      cached.isSome = true ∧ ∃ resp, env.response = Except.ok resp ∧
        ∃ body, resp.jsonBody = Except.ok body ∧ body.success = some true) := by
  obtain _ | tok := cached
  · refine ⟨fun _ => rfl, rfl, ?_⟩
    simp [registerPushTokenWithBackend]
  · refine ⟨fun h => Option.noConfusion h, ?_, ?_⟩
    · obtain ⟨_ | resp⟩ := env
      · rfl
      · obtain ⟨st, _ | body⟩ := resp
        · rfl
        · rfl
    · obtain ⟨_ | resp⟩ := env
      · simp [registerPushTokenWithBackend]
      · obtain ⟨st, _ | body⟩ := resp
        · simp [registerPushTokenWithBackend]
        · obtain ⟨_ | succ⟩ := body
          · simp [registerPushTokenWithBackend]
          · obtain _ | _ := succ <;>
              simp [registerPushTokenWithBackend]

/-- A failed fetch: the network request rejects. -/
def failedFetchEnv : BackendEnv := { response := Except.error () }

/-- A successful fetch whose body parses to `{success: true}`. -/
def okFetchEnv : BackendEnv :=
  { response := Except.ok { status := 200, jsonBody := Except.ok { success := some true } } }

/-- C3 witness: the characterization instantiated with no cached token, with
a network failure, and with an acknowledged success. -/
theorem registerPushTokenWithBackend_spec_witness :
    registerPushTokenWithBackend none failedFetchEnv = (false, false) ∧
    (registerPushTokenWithBackend (some "tok") failedFetchEnv).2 = true ∧
    (registerPushTokenWithBackend (some "tok") okFetchEnv).1 = true :=
  ⟨(registerPushTokenWithBackend_spec none failedFetchEnv).1 rfl,
   (registerPushTokenWithBackend_spec (some "tok") failedFetchEnv).2.1,
   (registerPushTokenWithBackend_spec (some "tok") okFetchEnv).2.2.mpr
     ⟨rfl, _, rfl, _, rfl, rfl⟩⟩

/-- An inbound notification whose payload carries the unrecognized category
tag "promo". -/
def promoInbound : InboundNotification :=
  { identifier := "n1"
    title := some "Sale"
    body := some "B"
    data := { typeTag := some "promo", conversationId := none } }

/-- C5 counterexample: with the unrecognized payload tag "promo" the
candidate record's category is "promo", not "other" — the code only defaults
when the tag is absent or falsy (`data?.type || 'other'`), refuting the claim
that every unrecognized tag resolves to `other`. -/
theorem mkCandidate_counterexample :
    (mkCandidate promoInbound 0).type = "promo" ∧
    (mkCandidate promoInbound 0).type ≠ "other" :=
  ⟨rfl, by decide⟩

/-- C5 (amended): the candidate record has `read = false`, the current time
as timestamp, the inbound identifier as id; its category is the payload tag
whenever that tag is present and non-empty (even if unrecognized), and
"other" exactly when the tag is absent or the empty string. -/
theorem mkCandidate_spec (n : InboundNotification) (now : Int) :
    (mkCandidate n now).read = false ∧
    (mkCandidate n now).timestamp = now ∧
    (mkCandidate n now).id = n.identifier ∧
    (n.data.typeTag = none → (mkCandidate n now).type = "other") ∧
    (n.data.typeTag = some "" → (mkCandidate n now).type = "other") ∧
    (∀ s, n.data.typeTag = some s → s ≠ "" → (mkCandidate n now).type = s) := by
  refine ⟨rfl, rfl, rfl, ?_, ?_, ?_⟩
  · intro h
    simp [mkCandidate, jsOrString, h]
  · intro h
    simp [mkCandidate, jsOrString, h]
  · intro s h hne
    exact mkCandidate_type_of_tag n now s h hne

/-- An inbound notification with no payload tag. -/
def untaggedInbound : InboundNotification :=
  { identifier := "w"
    title := none
    body := none
    data := { typeTag := none, conversationId := none } }

/-- An inbound notification with the recognized tag "appointment". -/
def apptTaggedInbound : InboundNotification :=
  { identifier := "w"
    title := none
    body := none
    data := { typeTag := some "appointment", conversationId := none } }

/-- C5 witness: the candidate fields instantiated on concrete inbound
notifications with an absent tag and with the recognized tag "appointment". -/
theorem mkCandidate_spec_witness :
    (mkCandidate untaggedInbound 7).type = "other" ∧
    (mkCandidate apptTaggedInbound 7).type = "appointment" ∧
    (mkCandidate untaggedInbound 7).read = false :=
  ⟨(mkCandidate_spec untaggedInbound 7).2.2.2.1 rfl,
   (mkCandidate_spec apptTaggedInbound 7).2.2.2.2.2 "appointment" rfl (by decide),
   (mkCandidate_spec untaggedInbound 7).1⟩

/-- C6 counterexample: `scheduleNotification` forwards its trigger argument
unchanged, so a call with a zero-second interval trigger schedules a delay of
0 seconds, not 1 — the claimed flooring does not happen inside
`scheduleNotification` (it lives in the convenience builders). -/
theorem scheduleNotification_counterexample :
    (scheduleNotification { type := "chat", title := "t", body := "b" }
        (some (TriggerInput.timeInterval 0 false)) true).trigger
      = some (TriggerInput.timeInterval 0 false) ∧
    (scheduleNotification { type := "chat", title := "t", body := "b" }
        (some (TriggerInput.timeInterval 0 false)) true).trigger
      ≠ some (TriggerInput.timeInterval 1 false) :=
  ⟨rfl, by decide⟩

/-- C6 (amended): `scheduleNotification` itself forwards the trigger
unchanged; the clamping to a minimum of 1 second happens in the builders:
`sendAppointmentNotification` and `sendMedicationNotification` schedule
exactly `max 1 (round((target - now)/1000))` seconds, so every interval
trigger they produce has `seconds ≥ 1`, never zero or negative. -/
theorem scheduleNotification_trigger_spec (d : NotificationData)
    (trig : Option TriggerInput) (android : Bool)
    (now apptTime minutesBefore medTime : Int) (apptTitle medName dosage : String) :
    (scheduleNotification d trig android).trigger = trig ∧
    (sendAppointmentNotification now apptTitle apptTime minutesBefore android).trigger
      = some (TriggerInput.timeInterval
          (max 1 (jsRoundDivThousand (apptTime - minutesBefore * 60 * 1000 - now)))
          false) ∧
    (∀ s r, (sendAppointmentNotification now apptTitle apptTime minutesBefore
        android).trigger = some (TriggerInput.timeInterval s r) → 1 ≤ s) ∧
    (sendMedicationNotification now medName dosage medTime android).trigger
      = some (TriggerInput.timeInterval
          (max 1 (jsRoundDivThousand (medTime - now))) false) ∧
    (∀ s r, (sendMedicationNotification now medName dosage medTime
        android).trigger = some (TriggerInput.timeInterval s r) → 1 ≤ s) := by
  refine ⟨rfl, rfl, ?_, rfl, ?_⟩
  · intro s r h
    simp only [sendAppointmentNotification, scheduleNotification,
      Option.some.injEq, TriggerInput.timeInterval.injEq] at h
    obtain ⟨hs, -⟩ := h
    rw [← hs]
    exact le_max_left 1 _
  · intro s r h
    simp only [sendMedicationNotification, scheduleNotification,
      Option.some.injEq, TriggerInput.timeInterval.injEq] at h
    obtain ⟨hs, -⟩ := h
    rw [← hs]
    exact le_max_left 1 _

/-- C6 witness: at concrete times an already-past appointment schedules a
1-second delay, and a direct `scheduleNotification` call keeps a `none`
trigger. -/
theorem scheduleNotification_trigger_spec_witness :
    (scheduleNotification { type := "chat", title := "t", body := "b" }
        none false).trigger = none ∧
    (1 : Int) ≤ 1 :=
  ⟨(scheduleNotification_trigger_spec { type := "chat", title := "t", body := "b" }
      none false 0 0 0 0 "a" "m" "d").1,
   (scheduleNotification_trigger_spec { type := "chat", title := "t", body := "b" }
      none false 0 0 0 0 "a" "m" "d").2.2.1 1 false rfl⟩

/-- C1: chat deduplication.  If some stored chat record shares the incoming
chat notification's conversationId and was received within the last 60000 ms,
the store is updated in place and its length does not grow.  Starting from an
empty store, two chat notifications of one conversation 61 seconds apart
yield two distinct records with the new one prepended, while 10 seconds apart
they collapse to a single record whose body is the second notification's
body (and whose timestamp is the second arrival time). -/
theorem addNotification_chat_dedup (n1 n2 : InboundNotification)
    (t now : Int) (existing : List NotificationRecord) (c : String)
    (h1 : n1.data.typeTag = some "chat") (h2 : n2.data.typeTag = some "chat")
    (hc1 : n1.data.conversationId = some c)
    (hc2 : n2.data.conversationId = some c) :
    ((∃ r ∈ existing, r.type = "chat" ∧
        r.data.conversationId = n1.data.conversationId ∧
        now - r.timestamp < 60000) →
      (addNotificationToHistory existing n1 now).length = existing.length) ∧
    (addNotificationToHistory (addNotificationToHistory [] n1 t) n2 (t + 61000)
      = [mkCandidate n2 (t + 61000), mkCandidate n1 t]) ∧
    mkCandidate n2 (t + 61000) ≠ mkCandidate n1 t ∧
    (addNotificationToHistory (addNotificationToHistory [] n1 t) n2 (t + 10000)
      = [{ mkCandidate n1 t with
           body := (mkCandidate n2 (t + 10000)).body
           timestamp := t + 10000 }]) := by
  have hchat1 : ∀ u : Int, (mkCandidate n1 u).type = "chat" :=
    fun u => mkCandidate_type_of_tag n1 u "chat" h1 (by decide)
  have hchat2 : ∀ u : Int, (mkCandidate n2 u).type = "chat" :=
    fun u => mkCandidate_type_of_tag n2 u "chat" h2 (by decide)
  refine ⟨?_, ?_, ?_, ?_⟩
  · rintro ⟨r, hr, hrt, hrc, hrlt⟩
    simp only [addNotificationToHistory]
    rw [if_pos (hchat1 now)]
    cases hf : existing.find?
        (chatDedupMatch (mkCandidate n1 now).data.conversationId now) with
    | none =>
        exfalso
        rw [List.find?_eq_none] at hf
        refine hf r hr ?_
        have hconv : r.data.conversationId
            = (mkCandidate n1 now).data.conversationId := hrc
        simp [chatDedupMatch, hrt, hconv, hrlt]
    | some found => simp
  · rw [addNotification_nil n1 t]
    have hpred : chatDedupMatch
        (mkCandidate n2 (t + 61000)).data.conversationId (t + 61000)
        (mkCandidate n1 t) = false := by
      have hts : ¬ (t + 61000 - (mkCandidate n1 t).timestamp < 60000) := by
        show ¬ (t + 61000 - t < 60000)
        omega
      simp [chatDedupMatch, hts]
    have hfind : List.find?
        (chatDedupMatch (mkCandidate n2 (t + 61000)).data.conversationId
          (t + 61000)) [mkCandidate n1 t] = none := by
      rw [List.find?_eq_none]
      intro x hx
      rw [List.mem_singleton] at hx
      subst hx
      simp [hpred]
    simp only [addNotificationToHistory]
    rw [if_pos (hchat2 (t + 61000)), hfind]
    exact take100_two _ _
  · intro h
    have := congrArg NotificationRecord.timestamp h
    simp only [mkCandidate] at this
    omega
  · rw [addNotification_nil n1 t]
    have hpred : chatDedupMatch
        (mkCandidate n2 (t + 10000)).data.conversationId (t + 10000)
        (mkCandidate n1 t) = true := by
      have hts : t + 10000 - (mkCandidate n1 t).timestamp < 60000 := by
        show t + 10000 - t < 60000
        omega
      have hconv : (mkCandidate n1 t).data.conversationId
          = (mkCandidate n2 (t + 10000)).data.conversationId := by
        show n1.data.conversationId = n2.data.conversationId
        rw [hc1, hc2]
      simp [chatDedupMatch, hchat1 t, hconv, hts]
    have hfind : List.find?
        (chatDedupMatch (mkCandidate n2 (t + 10000)).data.conversationId
          (t + 10000)) [mkCandidate n1 t]
        = some (mkCandidate n1 t) :=
      List.find?_cons_of_pos _ hpred
    simp only [addNotificationToHistory]
    rw [if_pos (hchat2 (t + 10000)), hfind]
    simp
    rfl

/-- First concrete chat message of conversation "k". -/
def chatMsgA : InboundNotification :=
  { identifier := "ca"
    title := some "Alice"
    body := some "hi"
    data := { typeTag := some "chat", conversationId := some "k" } }

/-- Second concrete chat message of conversation "k". -/
def chatMsgB : InboundNotification :=
  { identifier := "cb"
    title := some "Alice"
    body := some "are you there?"
    data := { typeTag := some "chat", conversationId := some "k" } }

/-- A stored chat record of conversation "k" received at time 0. -/
def storedChatRecord : NotificationRecord :=
  { id := "s"
    title := "Alice"
    body := "old"
    data := { typeTag := some "chat", conversationId := some "k" }
    timestamp := 0
    read := false
    type := "chat" }

/-- C1 witness: the dedup properties instantiated at concrete messages — an
in-window store keeps its length, 61 seconds apart gives two records, and 10
seconds apart gives one record carrying the second body. -/
theorem addNotification_chat_dedup_witness :
    (addNotificationToHistory [storedChatRecord] chatMsgA 5000).length = 1 ∧
    (addNotificationToHistory (addNotificationToHistory [] chatMsgA 0)
        chatMsgB (0 + 61000)
      = [mkCandidate chatMsgB (0 + 61000), mkCandidate chatMsgA 0]) ∧
    (addNotificationToHistory (addNotificationToHistory [] chatMsgA 0)
        chatMsgB (0 + 10000)
      = [{ mkCandidate chatMsgA 0 with
           body := (mkCandidate chatMsgB (0 + 10000)).body
           timestamp := 0 + 10000 }]) :=
  ⟨(addNotification_chat_dedup chatMsgA chatMsgB 0 5000 [storedChatRecord] "k"
      rfl rfl rfl rfl).1
      ⟨storedChatRecord, List.mem_singleton.mpr rfl, rfl, rfl, by decide⟩,
   (addNotification_chat_dedup chatMsgA chatMsgB 0 5000 [storedChatRecord] "k"
      rfl rfl rfl rfl).2.1,
   (addNotification_chat_dedup chatMsgA chatMsgB 0 5000 [storedChatRecord] "k"
      rfl rfl rfl rfl).2.2.2⟩

/-- C10: frame property of a chat-dedup hit.  When the dedup search finds a
record, the store keeps its length and its id sequence; every position keeps
its id, read flag, title, category and payload; positions whose id differs
from the found record's are completely unchanged; the found id's position
gets exactly the new body and timestamp; and the incoming notification's own
identifier is not added. -/
theorem addNotification_dedup_frame (existing : List NotificationRecord)
    (n : InboundNotification) (now : Int) (found : NotificationRecord)
    (hchat : (mkCandidate n now).type = "chat")
    (hfind : existing.find?
      (chatDedupMatch (mkCandidate n now).data.conversationId now)
      = some found) :
    (addNotificationToHistory existing n now).length = existing.length ∧
    (addNotificationToHistory existing n now).map (fun r => r.id)
      = existing.map (fun r => r.id) ∧
    (∀ i (hi : i < existing.length)
        (hi2 : i < (addNotificationToHistory existing n now).length),
      ((addNotificationToHistory existing n now)[i].id = existing[i].id ∧
       (addNotificationToHistory existing n now)[i].read = existing[i].read ∧
       (addNotificationToHistory existing n now)[i].title = existing[i].title ∧
       (addNotificationToHistory existing n now)[i].type = existing[i].type ∧
       (addNotificationToHistory existing n now)[i].data = existing[i].data) ∧
      (existing[i].id = found.id →
        (addNotificationToHistory existing n now)[i]
          = { existing[i] with
              body := (mkCandidate n now).body
              timestamp := now }) ∧
      (existing[i].id ≠ found.id →
        (addNotificationToHistory existing n now)[i] = existing[i])) ∧
    (n.identifier ∉ existing.map (fun r => r.id) →
      n.identifier ∉ (addNotificationToHistory existing n now).map
        (fun r => r.id)) := by
  have hres : addNotificationToHistory existing n now
      = existing.map (fun r =>
          if r.id = found.id then
            { r with
              body := (mkCandidate n now).body
              timestamp := (mkCandidate n now).timestamp }
          else r) := by
    simp only [addNotificationToHistory]
    rw [if_pos hchat, hfind]
  have hids : (addNotificationToHistory existing n now).map (fun r => r.id)
      = existing.map (fun r => r.id) := by
    rw [hres, List.map_map]
    refine List.map_congr_left (fun r _ => ?_)
    by_cases h : r.id = found.id <;> simp [h]
  refine ⟨by rw [hres, List.length_map], hids, ?_, fun hnm => by rw [hids]; exact hnm⟩
  intro i hi hi2
  have hg : (addNotificationToHistory existing n now)[i]
      = if existing[i].id = found.id then
          { existing[i] with
            body := (mkCandidate n now).body
            timestamp := (mkCandidate n now).timestamp }
        else existing[i] := by
    simp only [hres, List.getElem_map]
  by_cases h : existing[i].id = found.id
  · rw [hg, if_pos h]
    exact ⟨⟨rfl, rfl, rfl, rfl, rfl⟩, fun _ => rfl, fun hne => absurd h hne⟩
  · rw [hg, if_neg h]
    exact ⟨⟨rfl, rfl, rfl, rfl, rfl⟩, fun heq => absurd heq h, fun _ => rfl⟩

/-- A stored chat record of conversation "q" that is already read. -/
def readChatRecord : NotificationRecord :=
  { id := "old"
    title := "Bob"
    body := "before"
    data := { typeTag := some "chat", conversationId := some "q" }
    timestamp := 0
    read := true
    type := "chat" }

/-- A follow-up chat message of conversation "q" with a fresh identifier. -/
def followUpChatMsg : InboundNotification :=
  { identifier := "fresh"
    title := some "Bob"
    body := some "after"
    data := { typeTag := some "chat", conversationId := some "q" } }

/-- C10 witness: a dedup hit on a single read record keeps the length, keeps
the stored id (discarding the incoming identifier "fresh"), and the witness
store state still carries the old id. -/
theorem addNotification_dedup_frame_witness :
    (addNotificationToHistory [readChatRecord] followUpChatMsg 1000).length = 1 ∧
    (addNotificationToHistory [readChatRecord] followUpChatMsg 1000).map
      (fun r => r.id) = ["old"] ∧
    "fresh" ∉ (addNotificationToHistory [readChatRecord] followUpChatMsg 1000).map
      (fun r => r.id) :=
  ⟨(addNotification_dedup_frame [readChatRecord] followUpChatMsg 1000
      readChatRecord rfl rfl).1,
   (addNotification_dedup_frame [readChatRecord] followUpChatMsg 1000
      readChatRecord rfl rfl).2.1,
   (addNotification_dedup_frame [readChatRecord] followUpChatMsg 1000
      readChatRecord rfl rfl).2.2.2 (by decide)⟩

/-- The condition under which `addNotificationToHistory` takes the in-place
chat-dedup branch: the candidate resolves to category chat and the dedup
search finds a record. -/
def dedupHit (existing : List NotificationRecord) (n : InboundNotification)
    (now : Int) : Prop :=
  (mkCandidate n now).type = "chat" ∧
    (existing.find? (chatDedupMatch (mkCandidate n now).data.conversationId
      now)).isSome = true

instance dedupHitDecidable (l : List NotificationRecord)
    (n : InboundNotification) (now : Int) : Decidable (dedupHit l n now) := by
  unfold dedupHit
  infer_instance

lemma addNotification_prepend (l : List NotificationRecord)
    (n : InboundNotification) (now : Int) (hmiss : ¬ dedupHit l n now) :
    addNotificationToHistory l n now = (mkCandidate n now :: l).take 100 := by
  by_cases hchat : (mkCandidate n now).type = "chat"
  · simp only [addNotificationToHistory]
    rw [if_pos hchat]
    cases hf : l.find?
        (chatDedupMatch (mkCandidate n now).data.conversationId now) with
    | none => rfl
    | some r => exact absurd ⟨hchat, by rw [hf]; rfl⟩ hmiss
  · simp only [addNotificationToHistory]
    rw [if_neg hchat]

lemma addNotification_hit_length (l : List NotificationRecord)
    (n : InboundNotification) (now : Int) (hhit : dedupHit l n now) :
    (addNotificationToHistory l n now).length = l.length := by
  obtain ⟨hchat, hsome⟩ := hhit
  simp only [addNotificationToHistory]
  rw [if_pos hchat]
  cases hf : l.find?
      (chatDedupMatch (mkCandidate n now).data.conversationId now) with
  | none => rw [hf] at hsome; simp at hsome
  | some r => simp

lemma getLast_timestamp_min :
    ∀ (l : List NotificationRecord),
      List.Pairwise (fun a b => b.timestamp ≤ a.timestamp) l →
      ∀ (hne : l ≠ []), ∀ r ∈ l, (l.getLast hne).timestamp ≤ r.timestamp := by
  intro l
  induction l with
  | nil => intro _ hne; exact absurd rfl hne
  | cons a t ih =>
    intro hp hne r hr
    cases t with
    | nil =>
      rw [List.mem_singleton] at hr
      subst hr
      exact le_refl _
    | cons b t2 =>
      rw [List.getLast_cons (List.cons_ne_nil b t2)]
      rcases List.mem_cons.mp hr with h | h2
      · subst h
        exact (List.pairwise_cons.mp hp).1 _
          (List.getLast_mem (List.cons_ne_nil b t2))
      · exact ih (List.pairwise_cons.mp hp).2 (List.cons_ne_nil b t2) r h2

/-- C2 (amended): the 100-record cap is maintained — a store of at most 100
records still has at most 100 after any `addNotificationToHistory`.  An
insertion at the cap that is not deduplicated keeps size 100 and evicts
exactly the LAST record of the stored list order, prepending the candidate
and leaving all other records unchanged; the stored list splits as
`dropLast ++ [last]`, and whenever the stored list is sorted descending by
timestamp that evicted last record has the minimal receivedAt.  (After a
chat dedup in-place update the stored order can be unsorted, so the evicted
record is not in general the oldest — see the counterexample.) -/
theorem addNotification_cap_spec (l : List NotificationRecord)
    (n : InboundNotification) (now : Int) :
    (l.length ≤ 100 → (addNotificationToHistory l n now).length ≤ 100) ∧
    (¬ dedupHit l n now → l.length = 100 →
      addNotificationToHistory l n now = mkCandidate n now :: l.dropLast) ∧
    (¬ dedupHit l n now → l.length = 100 →
      (addNotificationToHistory l n now).length = 100) ∧
    (∀ (hne : l ≠ []), l.dropLast ++ [l.getLast hne] = l) ∧
    (∀ (hne : l ≠ []),
      List.Pairwise (fun a b => b.timestamp ≤ a.timestamp) l →
      ∀ r ∈ l, (l.getLast hne).timestamp ≤ r.timestamp) := by
  refine ⟨?_, ?_, ?_, fun hne => List.dropLast_append_getLast hne,
    fun hne hp => getLast_timestamp_min l hp hne⟩
  · intro h100
    by_cases hhit : dedupHit l n now
    · rw [addNotification_hit_length l n now hhit]
      exact h100
    · rw [addNotification_prepend l n now hhit, List.length_take]
      exact min_le_left 100 _
  · intro hmiss h100
    rw [addNotification_prepend l n now hmiss]
    rw [show (100 : Nat) = 99 + 1 from rfl, List.take_succ_cons]
    congr 1
    rw [List.dropLast_eq_take, h100]
  · intro hmiss h100
    rw [addNotification_prepend l n now hmiss, List.length_take,
      List.length_cons, h100]
    decide

/-- A chat message of conversation "conv1" with the given id and body. -/
def chatInbound (idStr body : String) : InboundNotification :=
  { identifier := idStr
    title := some "Chat"
    body := some body
    data := { typeTag := some "chat", conversationId := some "conv1" } }

/-- The i-th non-chat (appointment) notification, id `r<i>`. -/
def apptInbound (i : Nat) : InboundNotification :=
  { identifier := "r" ++ toString i
    title := some "Appt"
    body := some "b"
    data := { typeTag := some "appointment", conversationId := none } }

/-- A store at the 100-record cap, built through the operations themselves:
one chat record of conversation "conv1" received at time 0, then 99
appointment records at times 1..99 (the chat record ends up last in stored
order, holding the lowest timestamp). -/
def capStateA : List NotificationRecord :=
  List.foldl
    (fun s i => addNotificationToHistory s (apptInbound (i + 1)) ((i : Int) + 1))
    (addNotificationToHistory [] (chatInbound "chat0" "first") 0)
    (List.range 99)

/-- The capped store after a chat-dedup hit at time 59999: the chat record is
updated in place at the LAST stored position, so the stored order is no
longer sorted by timestamp — the last record now has timestamp 59999 while
record "r1" (timestamp 1) is the oldest. -/
def capStateB : List NotificationRecord :=
  addNotificationToHistory capStateA (chatInbound "chat0b" "second") 59999

/-- The store after inserting a 101st, non-deduplicated record at time
60000. -/
def capStateC : List NotificationRecord :=
  addNotificationToHistory capStateB (apptInbound 100) 60000

set_option maxRecDepth 10000 in
/-- C2 counterexample: in the reachable capped store `capStateB` the unique
oldest record is "r1" (timestamp 1, every other record's timestamp is at
least 2), yet inserting a 101st non-deduplicated record evicts the record
"chat0" (timestamp 59999) and keeps "r1" — the evicted record is NOT the one
with the lowest receivedAt, refuting the claimed eviction policy. -/
theorem addNotification_evict_counterexample :
    capStateB.length = 100 ∧
    (∃ r ∈ capStateB, r.id = "r1" ∧ r.timestamp = 1) ∧
    (∀ r ∈ capStateB, r.id = "r1" ∨ 2 ≤ r.timestamp) ∧
    (∃ r ∈ capStateB, r.id = "chat0" ∧ r.timestamp = 59999) ∧
    capStateC.length = 100 ∧
    (∃ r ∈ capStateC, r.id = "r1") ∧
    (∀ r ∈ capStateC, r.id ≠ "chat0") := by decide

set_option maxRecDepth 10000 in
/-- C2 witness: the amended cap properties instantiated on the concrete
capped store — the cap is kept, and the at-cap non-dedup insertion prepends
the candidate, drops the last stored record and keeps size 100; the
sortedness clause instantiated on a singleton store. -/
theorem addNotification_cap_spec_witness :
    (addNotificationToHistory capStateB (apptInbound 100) 60000).length ≤ 100 ∧
    addNotificationToHistory capStateB (apptInbound 100) 60000
      = mkCandidate (apptInbound 100) 60000 :: capStateB.dropLast ∧
    (addNotificationToHistory capStateB (apptInbound 100) 60000).length = 100 ∧
    ([sampleRecord].getLast (by decide)).timestamp ≤ sampleRecord.timestamp :=
  ⟨(addNotification_cap_spec capStateB (apptInbound 100) 60000).1 (by decide),
   (addNotification_cap_spec capStateB (apptInbound 100) 60000).2.1
     (by decide) (by decide),
   (addNotification_cap_spec capStateB (apptInbound 100) 60000).2.2.1
     (by decide) (by decide),
   (addNotification_cap_spec [sampleRecord] (apptInbound 100) 60000).2.2.2.2
     (by decide) (by decide) sampleRecord (List.mem_singleton.mpr rfl)⟩
